import Mathlib

/-!
# WAPA conversational tool-dispatch loop: a shallow embedding

This file embeds the core of the `wapa-api` repository (a WhatsApp chat
assistant that sends a stablecoin token between custodial wallets) in Lean 4
and proves properties of it:

* the history windower `AIService.prepareConversationHistory`
  (src/services/ai.service.js);
* the onboarding state gate of `WhatsappService.webhookResponse`
  (src/services/whatsapp.service.js);
* the `ToolService.sendMoney` handler (src/services/tool.service.js),
  with the external collaborators (persistence, blockchain) modelled as an
  environment plus an explicit trace of collaborator calls;
* the placeholder substitution and error fallback of
  `AIService.tooledConversation` (src/services/ai.service.js);
* `UserService.registerUserForFirstTime` / `UserService.create`
  (src/entities/users/user.service.js).

JavaScript numbers are modelled as `Int` (the code only compares amounts and
tests them for zero); nullable / possibly-absent JS values are modelled as
`Option`; JS truthiness of strings and numbers is modelled explicitly.
-/

namespace Wapa

/-! ## JS primitives -/

/-- Truthiness of a possibly-absent JS string: `undefined`, `null` and `""`
are falsy, every other string is truthy. -/
def strTruthy : Option String → Bool
  | none => false
  | some s => s != ""

/-- Truthiness of a possibly-absent JS number: `undefined`, `null` and `0`
are falsy (NaN does not arise in the embedding). -/
def numTruthy : Option Int → Bool
  | none => false
  | some n => n != 0

/-- White-space characters recognised by `String.prototype.trim` (the ASCII
ones; the code only ever has ordinary spaces at stake). -/
def jsWhitespace (c : Char) : Bool :=
  c == ' ' || c == '\t' || c == '\n' || c == '\r' || c == '\x0b' || c == '\x0c'

/-- `String.prototype.trim` on the underlying character list. -/
def jsTrimL (l : List Char) : List Char :=
  ((l.dropWhile jsWhitespace).reverse.dropWhile jsWhitespace).reverse

/-- `String.prototype.trim`. -/
def jsTrim (s : String) : String := ⟨jsTrimL s.data⟩

/-- `String.prototype.replace` with a string pattern on character lists:
replace the first occurrence of `pat` (if any) by `repl`, leave the string
unchanged otherwise. -/
def replaceFirstL (pat repl : List Char) : List Char → List Char
  | [] => if pat.isPrefixOf ([] : List Char) then repl else []
  | c :: rest =>
    if pat.isPrefixOf (c :: rest) then repl ++ (c :: rest).drop pat.length
    else c :: replaceFirstL pat repl rest

/-- `s.replace(pat, repl)` for a string pattern: first occurrence only. -/
def replaceFirst (s pat repl : String) : String :=
  ⟨replaceFirstL pat.data repl.data s.data⟩

/-! ## History windower (`AIService.prepareConversationHistory`) -/

/-- One raw WhatsApp message as delivered by the transport collaborator:
`timestamp` orders the conversation, `body` may be absent or empty, `fromMe`
is true when the assistant itself sent the message (so the human sender is
`!fromMe`). -/
structure WaMessage where
  timestamp : Int
  body : Option String
  fromMe : Bool
deriving DecidableEq

/-- A role-tagged context entry handed to the completion collaborator. -/
structure CtxEntry where
  role : String
  ctype : String
  text : String
deriving DecidableEq

/-- The sort relation of `[...messages].sort((a, b) => a.timestamp - b.timestamp)`. -/
def tsLe (a b : WaMessage) : Prop := a.timestamp ≤ b.timestamp

instance : DecidableRel tsLe :=
  fun a b => inferInstanceAs (Decidable (a.timestamp ≤ b.timestamp))

instance : IsTotal WaMessage tsLe := ⟨fun a b => Int.le_total a.timestamp b.timestamp⟩

instance : IsTrans WaMessage tsLe := ⟨fun _ _ _ h1 h2 => Int.le_trans h1 h2⟩

/-- The filter `msg => msg.body && msg.body.trim() !== ''`. -/
def msgKeep (m : WaMessage) : Bool :=
  match m.body with
  | none => false
  | some s => s != "" && jsTrim s != ""

/-- The final mapping of a surviving message to an OpenAI context entry:
`role = !msg.fromMe ? 'user' : 'assistant'`, matching `type`, and
`text = msg.body || ''`. -/
def toEntry (m : WaMessage) : CtxEntry :=
  { role := if !m.fromMe then "user" else "assistant"
    ctype := if !m.fromMe then "input_text" else "output_text"
    text := m.body.getD "" }

/-- `array.slice(-n)`: the last `n` elements, the whole array when `n = 0`
(JS `slice(-0)` is `slice(0)`). -/
def takeLast (l : List α) (n : Nat) : List α :=
  if n = 0 then l else l.drop (l.length - n)

/-- The windowing stage of `prepareConversationHistory`: sort ascending by
timestamp (JS `sort` is stable; modelled by insertion sort), drop blank
bodies, keep the last `limit` messages. -/
def windowMessages (msgs : List WaMessage) (limit : Nat) : List WaMessage :=
  takeLast ((msgs.insertionSort tsLe).filter msgKeep) limit

/-- `AIService.prepareConversationHistory(messages, limit = 10)`; the
argument is `Option`-wrapped to model the `!messages` null check. -/
def prepareConversationHistory (messages : Option (List WaMessage)) (limit : Nat) :
    List CtxEntry :=
  match messages with
  | none => []
  | some msgs =>
    if msgs.length = 0 then []
    else (windowMessages msgs limit).map toEntry

/-! ## Onboarding state gate (`WhatsappService.webhookResponse`) -/

/-- The two dispatcher modes of the orchestrator. -/
inductive Mode where
  | ONBOARDING
  | OPERATIONAL
deriving DecidableEq

/-- The mode decision
`if (!userData.nicename || !userData.email) { ...onboarding... } else { ...tooled... }`
of `WhatsappService.webhookResponse`: plain JS truthiness on the raw profile
fields, with no trimming. -/
def onboardingGate (nicename email : Option String) : Mode :=
  if !strTruthy nicename || !strTruthy email then Mode.ONBOARDING else Mode.OPERATIONAL

/-! ## User registration (`UserService.create` / `registerUserForFirstTime`) -/

/-- The profile-relevant fields of the user record handed to
`UserService.create`.  The `password`-hashing and `phone → metas` steps of
`create` touch other fields only and are omitted. -/
structure UserData where
  idWa : Option String := none
  username : Option String := none
  email : Option String := none
  nicename : Option String := none
  firstname : Option String := none
  lastname : Option String := none
deriving DecidableEq

/-- The business logic of `UserService.create`: default `username`/`email`
from one another when exactly one is truthy, and build `nicename` from
`firstname + ' ' + lastname` when both are truthy. -/
def createUser (data : UserData) : UserData :=
  let data :=
    if strTruthy data.username && !strTruthy data.email then
      { data with email := data.username }
    else if strTruthy data.email && !strTruthy data.username then
      { data with username := data.email }
    else data
  let data :=
    if strTruthy data.firstname && strTruthy data.lastname then
      { data with nicename := some (data.firstname.getD "" ++ " " ++ data.lastname.getD "") }
    else data
  data

/-- `UserService.registerUserForFirstTime(idWa, data)`:
sets `data.idWa = idWa` and `data.email = idWa`, then calls `create`. -/
def registerUserForFirstTime (idWa : String) (data : UserData) : UserData :=
  createUser { data with idWa := some idWa, email := some idWa }

/-! ## The send-money handler (`ToolService.sendMoney`)

External collaborators are modelled by an environment `Env` (the Prisma user
table, the chain's balances, the wallet generator, and the outcome of the
on-chain transfer), and every collaborator call the handler makes is recorded
in an explicit trace of events, in call order, at the collaborator boundary
of the design (`findProfile`, `getBalance`, `createProfile`,
`generateWallet`, `fundWallet`, `updateProfile`/wallet persistence,
`transfer`). -/

/-- A custodial wallet as stored in `user.metas.wallet`. -/
structure Wallet where
  address : String
  privateKey : String
deriving DecidableEq

/-- A persisted user row, with the fields `sendMoney` reads. -/
structure User where
  idWa : String
  nicename : Option String
  email : Option String
  wallet : Option Wallet
deriving DecidableEq

/-- `prisma.user.findFirst({ where: { idWa } })`. -/
def findFirst (db : List User) (idWa : String) : Option User :=
  db.find? (fun u => u.idWa == idWa)

/-- The `contact` argument object of the `sendMoney` tool. -/
structure Contact where
  name : Option String
  phoneNumber : Option String
deriving DecidableEq

/-- The argument object the model supplies for `sendMoney`, after JSON
parsing.  `idWa` is the actor-identity slot that `tooledConversation`
overwrites before dispatch. -/
structure SendMoneyArgs where
  amount : Option Int
  contact : Option Contact
  continueConversation : Option String
  idWa : String
deriving DecidableEq

/-- The actor injection `args.idWa = from` performed by
`AIService.tooledConversation` before invoking the tool handler. -/
def injectIdWa (frm : String) (args : SendMoneyArgs) : SendMoneyArgs :=
  { args with idWa := frm }

/-- One collaborator call made by `sendMoney`, in the order issued. -/
inductive Ev where
  | findUser (idWa : String)
  | getBalance (walletAddress tokenAddress : String)
  | createProfile (idWa : String) (nicename : String)
  | generateWallet
  | fundWallet (address : String)
  | updateUserWallet (idWa : String)
  | sendToken (fromAddress toAddress : String) (amount : Int)
deriving DecidableEq

/-- The call kind of an event, forgetting its payload. -/
inductive EvKind where
  | findUser
  | getBalance
  | createProfile
  | generateWallet
  | fundWallet
  | updateUserWallet
  | sendToken
deriving DecidableEq

/-- Kind of a collaborator call. -/
def evKind : Ev → EvKind
  | .findUser _ => .findUser
  | .getBalance _ _ => .getBalance
  | .createProfile _ _ => .createProfile
  | .generateWallet => .generateWallet
  | .fundWallet _ => .fundWallet
  | .updateUserWallet _ => .updateUserWallet
  | .sendToken _ _ _ => .sendToken

/-- The side-effecting calls the transfer scenario counts: profile creation,
wallet generation, wallet funding, and the token transfer itself. -/
def isKeyEv (e : Ev) : Bool :=
  match evKind e with
  | .createProfile => true
  | .generateWallet => true
  | .fundWallet => true
  | .sendToken => true
  | _ => false

/-- The errors `sendMoney` can throw, one per `throw` site (the names follow
the thrown messages; `typeErrorNoWallet` is the implicit JS `TypeError` from
reading `user.metas.wallet.address` when the sender has no wallet). -/
inductive SmErr where
  | amountRequired
  | contactRequired
  | contactNameAndPhoneRequired
  | contactNameRequired
  | contactPhoneRequired
  | userNotFound
  | typeErrorNoWallet
  | insufficientBalance
  | errorSendingMoney
deriving DecidableEq

/-- The validation errors raised before any collaborator call. -/
def isValidationErr : SmErr → Bool
  | .amountRequired => true
  | .contactRequired => true
  | .contactNameAndPhoneRequired => true
  | .contactNameRequired => true
  | .contactPhoneRequired => true
  | _ => false

/-- The transaction object returned by `CryptoService.sendToken` (the fields
`tooledConversation` reads). -/
structure Tx where
  hash : String
deriving DecidableEq

/-- The balance object returned by `CryptoService.getTokenBalance`:
`balance` is the formatted token balance, compared numerically. -/
structure BalanceInfo where
  balance : Int
deriving DecidableEq

/-- The value `sendMoney` returns on success. -/
structure SmResult where
  transaction : Tx
  amount : Int
  contactName : String
  contactNumber : String
  balance : BalanceInfo
deriving DecidableEq

/-- The collaborator environment of a single `sendMoney` run: the user
table, the chain's token balances per wallet address, the wallet
`generateWallet` would produce, and whether / with which hash the on-chain
transfer settles. -/
structure Env where
  db : List User
  balanceOf : String → Int
  newWallet : Wallet
  transferOk : Bool
  txHash : String

/-- The MXNB token contract address hard-coded at every chain call. -/
def tokenAddress : String := "0x82b9e52b26a2954e113f94ff26647754d5a4247d"

/-- The tail of `ToolService.sendMoney` from the `CryptoService.sendToken`
call on: the transfer itself (reported as `errorSendingMoney` when the chain
collaborator fails, without retry), then the post-transfer balance re-query
and the result object. -/
def sendMoneyTransferStep (env : Env) (senderWallet : Wallet) (amount : Int)
    (contactName contactNumber recipientWalletAddress : String) (tr : List Ev) :
    Except SmErr SmResult × List Ev :=
  let tr := tr ++ [Ev.sendToken senderWallet.address recipientWalletAddress amount]
  if env.transferOk then
    (Except.ok
       { transaction := { hash := env.txHash }
         amount := amount
         contactName := contactName
         contactNumber := contactNumber
         balance := { balance := env.balanceOf senderWallet.address } },
     tr ++ [Ev.getBalance senderWallet.address tokenAddress])
  else
    (Except.error SmErr.errorSendingMoney, tr)

/-- `ToolService.sendMoney(funcArgs)`: argument validation in source order,
sender lookup, balance check, recipient resolution (registering and funding
a wallet for unknown or wallet-less recipients), then the transfer step. -/
def sendMoney (env : Env) (args : SendMoneyArgs) : Except SmErr SmResult × List Ev :=
  if !numTruthy args.amount then (Except.error SmErr.amountRequired, []) else
  match args.contact with
  | none => (Except.error SmErr.contactRequired, [])
  | some contact =>
    if !strTruthy contact.name && !strTruthy contact.phoneNumber then
      (Except.error SmErr.contactNameAndPhoneRequired, [])
    else if !strTruthy contact.name then
      (Except.error SmErr.contactNameRequired, [])
    else if !strTruthy contact.phoneNumber then
      (Except.error SmErr.contactPhoneRequired, [])
    else
      let amount := args.amount.getD 0
      let contactName := contact.name.getD ""
      let contactNumber := contact.phoneNumber.getD ""
      let tr := [Ev.findUser args.idWa]
      match findFirst env.db args.idWa with
      | none => (Except.error SmErr.userNotFound, tr)
      | some user =>
        match user.wallet with
        | none => (Except.error SmErr.typeErrorNoWallet, tr)
        | some w =>
          let tr := tr ++ [Ev.getBalance w.address tokenAddress]
          if env.balanceOf w.address < amount then
            (Except.error SmErr.insufficientBalance, tr)
          else
            let tr := tr ++ [Ev.findUser contactNumber]
            match findFirst env.db contactNumber with
            | none =>
              sendMoneyTransferStep env w amount contactName contactNumber
                env.newWallet.address
                (tr ++ [Ev.createProfile contactNumber contactName, Ev.generateWallet,
                        Ev.fundWallet env.newWallet.address,
                        Ev.updateUserWallet contactNumber])
            | some recipient =>
              match recipient.wallet with
              | none =>
                sendMoneyTransferStep env w amount contactName contactNumber
                  env.newWallet.address
                  (tr ++ [Ev.generateWallet, Ev.fundWallet env.newWallet.address,
                          Ev.updateUserWallet contactNumber])
              | some rw =>
                sendMoneyTransferStep env w amount contactName contactNumber rw.address tr

/-! ## Confirmation-template formatting and the dispatch error fallback
(`AIService.tooledConversation`) -/

/-- The transaction-details block spliced in for `%transaction_details%`. -/
def txDetailsText (hash : String) : String :=
  "Link: https://sepolia.arbiscan.io/tx/" ++ hash

/-- The `sendMoney` confirmation formatting of `tooledConversation`:
replace `%amount%`, `%name%` and `%transaction_details%` (the latter by the
line-break-prefixed explorer-link block), each by one first-occurrence
string replacement, in source order. -/
def formatSendMoneyReply (cc amountStr nameStr hash : String) : String :=
  replaceFirst
    (replaceFirst (replaceFirst cc "%amount%" amountStr) "%name%" nameStr)
    "%transaction_details%" ("\n\n" ++ txDetailsText hash)

/-- The `getWalletBalance` confirmation formatting of `tooledConversation`. -/
def formatBalanceReply (cc balanceStr : String) : String :=
  replaceFirst cc "%amount%" balanceStr

/-- The generic apology `tooledConversation` substitutes for any error
caught during tool dispatch. -/
def apologyMsg : String :=
  "Lo siento, hubo un error al procesar tu solicitud. Por favor intenta de nuevo más tarde."

/-- The `sendMoney` dispatch step of `tooledConversation`: run the handler
once; on a caught error reply with the fixed apology; on success format the
model's `continueConversation` template (a missing template makes the
formatting itself throw, landing in the same catch), and return it when
truthy.  The second component is the collaborator trace of the single
handler run. -/
def tooledSendMoneyTurn (env : Env) (args : SendMoneyArgs) : Option String × List Ev :=
  match sendMoney env args with
  | (Except.error _, tr) => (some apologyMsg, tr)
  | (Except.ok r, tr) =>
    match args.continueConversation with
    | none => (some apologyMsg, tr)
    | some cc =>
      let out := formatSendMoneyReply cc (toString r.amount) r.contactName r.transaction.hash
      (if out == "" then none else some out, tr)

/-- Whether a collaborator call is the token transfer (`sendToken`). -/
def isSendTokenEv : Ev → Bool
  | .sendToken _ _ _ => true
  | _ => false

/-! ## Concrete instances used to instantiate the theorems -/

/-- A sample conversation: out of order, with one whitespace-only body. -/
def histMsgs : List WaMessage :=
  [{ timestamp := 2, body := some "hola", fromMe := false },
   { timestamp := 1, body := some "  ", fromMe := true },
   { timestamp := 3, body := some "va", fromMe := true }]

/-- A sample sender wallet. -/
def walletS : Wallet := { address := "0xSENDER", privateKey := "0xk1" }

/-- A sample recipient wallet. -/
def walletR : Wallet := { address := "0xRECIP", privateKey := "0xk3" }

/-- A sample onboarded sender profile with a wallet. -/
def userS : User :=
  { idWa := "5215550000001@c.us", nicename := some "Ana",
    email := some "ana@example.com", wallet := some walletS }

/-- A sample recipient profile with a wallet. -/
def userR : User :=
  { idWa := "5215550000002@c.us", nicename := some "Pedro",
    email := some "pedro@example.com", wallet := some walletR }

/-- A sample transfer request: 500 tokens to Pedro, sent by `userS`. -/
def reqArgs : SendMoneyArgs :=
  { amount := some 500
    contact := some { name := some "Pedro", phoneNumber := some "5215550000002@c.us" }
    continueConversation := some "Envié %amount% a %name% %transaction_details%"
    idWa := "5215550000001@c.us" }

/-- Environment where the sender's balance (100) is below the request. -/
def lowBalEnv : Env :=
  { db := [userS], balanceOf := fun _ => 100,
    newWallet := { address := "0xNEW", privateKey := "0xk2" },
    transferOk := true, txHash := "0xabc" }

/-- Environment with ample balance and no recipient profile on record. -/
def newRecipEnv : Env :=
  { db := [userS], balanceOf := fun _ => 1000,
    newWallet := { address := "0xNEW", privateKey := "0xk2" },
    transferOk := true, txHash := "0xabc" }

/-- Environment where the on-chain transfer fails. -/
def failEnv : Env :=
  { db := [userS, userR], balanceOf := fun _ => 1000,
    newWallet := { address := "0xNEW", privateKey := "0xk2" },
    transferOk := false, txHash := "0xabc" }

/-- Environment with both profiles on record and a succeeding transfer. -/
def okEnv : Env :=
  { db := [userS, userR], balanceOf := fun _ => 100,
    newWallet := { address := "0xNEW", privateKey := "0xk2" },
    transferOk := true, txHash := "0xabc" }

/-- A transfer request with a negative amount. -/
def negArgs : SendMoneyArgs :=
  { amount := some (-1)
    contact := some { name := some "Pedro", phoneNumber := some "5215550000002@c.us" }
    continueConversation := some "ok"
    idWa := "5215550000001@c.us" }

/-! ## Theorems: history windower -/

/-- `takeLast` yields a sublist. -/
theorem takeLast_sublist (l : List α) (n : Nat) : List.Sublist (takeLast l n) l := by
  unfold takeLast
  split
  · exact List.Sublist.refl l
  · exact List.drop_sublist _ _

/-- The windowed history is sorted ascending by timestamp. -/
theorem windowMessages_sorted (msgs : List WaMessage) (limit : Nat) :
    List.Sorted tsLe (windowMessages msgs limit) := by
  have h1 : List.Sorted tsLe (msgs.insertionSort tsLe) := List.sorted_insertionSort tsLe msgs
  have h2 : List.Sorted tsLe ((msgs.insertionSort tsLe).filter msgKeep) :=
    List.Pairwise.filter msgKeep h1
  exact h2.sublist (takeLast_sublist _ _)

/-- Every message surviving the window has a non-blank body. -/
theorem windowMessages_keep (msgs : List WaMessage) (limit : Nat) :
    ∀ m ∈ windowMessages msgs limit, msgKeep m = true := by
  intro m hm
  have hmem : m ∈ (msgs.insertionSort tsLe).filter msgKeep :=
    (takeLast_sublist _ _).subset hm
  exact List.of_mem_filter hmem

/-- With a positive limit, the window keeps at most `limit` messages. -/
theorem windowMessages_length_le (msgs : List WaMessage) (limit : Nat) (h : 0 < limit) :
    (windowMessages msgs limit).length ≤ limit := by
  unfold windowMessages takeLast
  rw [if_neg (Nat.pos_iff_ne_zero.mp h)]
  rw [List.length_drop]
  omega

/-- C6: for every list of conversation messages and positive limit,
`prepareConversationHistory` windows the messages into a sequence sorted
ascending by timestamp, containing no blank-bodied message, of length at
most `limit`, each entry role-tagged `user` for the human sender and
`assistant` for the bot, and returns `[]` without error on null or empty
input. -/
theorem prepareConversationHistory_spec (msgs : List WaMessage) (limit : Nat)
    (hl : 0 < limit) :
    List.Sorted tsLe (windowMessages msgs limit)
    ∧ (∀ m ∈ windowMessages msgs limit, msgKeep m = true)
    ∧ (windowMessages msgs limit).length ≤ limit
    ∧ prepareConversationHistory (some msgs) limit = (windowMessages msgs limit).map toEntry
    ∧ (∀ m : WaMessage, (toEntry m).role = if m.fromMe then "assistant" else "user")
    ∧ prepareConversationHistory none limit = []
    ∧ prepareConversationHistory (some []) limit = [] := by
  refine ⟨windowMessages_sorted msgs limit, windowMessages_keep msgs limit,
          windowMessages_length_le msgs limit hl, ?_, ?_, rfl, ?_⟩
  · by_cases h : msgs.length = 0
    · have hnil : msgs = [] := List.length_eq_zero.mp h
      subst hnil
      simp [prepareConversationHistory, windowMessages, takeLast]
    · simp [prepareConversationHistory, h]
  · intro m
    cases hm : m.fromMe <;> simp [toEntry, hm]
  · simp [prepareConversationHistory, windowMessages, takeLast]

/-- Witness for C6 at a concrete conversation and limit 2. -/
theorem prepareConversationHistory_spec_witness :
    (windowMessages histMsgs 2).length ≤ 2
    ∧ prepareConversationHistory (some histMsgs) 2 = (windowMessages histMsgs 2).map toEntry :=
  ⟨(prepareConversationHistory_spec histMsgs 2 (by decide)).2.2.1,
   (prepareConversationHistory_spec histMsgs 2 (by decide)).2.2.2.1⟩

/-- An already sorted, blank-free, short-enough list passes the window
unchanged. -/
theorem windowMessages_eq_self (w : List WaMessage) (limit : Nat)
    (hs : List.Sorted tsLe w) (hk : ∀ m ∈ w, msgKeep m = true)
    (hl : limit = 0 ∨ w.length ≤ limit) :
    windowMessages w limit = w := by
  unfold windowMessages takeLast
  rw [hs.insertionSort_eq, List.filter_eq_self.mpr hk]
  rcases hl with h | h
  · rw [if_pos h]
  · by_cases h0 : limit = 0
    · rw [if_pos h0]
    · rw [if_neg h0, Nat.sub_eq_zero_of_le h, List.drop_zero]

/-- C7: the history windower is idempotent — re-applying the windowing
stage (sort, blank filter, keep-last-limit) to its own output returns it
unchanged, for every message list and limit.  (The role-tagging `map` is a
final relabelling applied after this stage.) -/
theorem windowMessages_idempotent (msgs : List WaMessage) (limit : Nat) :
    windowMessages (windowMessages msgs limit) limit = windowMessages msgs limit := by
  apply windowMessages_eq_self
  · exact windowMessages_sorted msgs limit
  · exact windowMessages_keep msgs limit
  · by_cases h : limit = 0
    · exact Or.inl h
    · exact Or.inr (windowMessages_length_le msgs limit (Nat.pos_of_ne_zero h))

/-! ## Theorems: onboarding gate -/

/-- C4 counterexample: a profile whose display name is the single space
`" "` (whitespace-only, so empty after trimming) together with a non-empty
email is classified as onboarded and routed to OPERATIONAL, not ONBOARDING:
the gate applies plain truthiness with no trimming. -/
theorem onboardingGate_whitespace_counterexample :
    onboardingGate (some " ") (some "ana@example.com") = Mode.OPERATIONAL
    ∧ jsTrim " " = "" := by decide

/-- C4 amended: the gate classifies a profile as onboarded (OPERATIONAL)
iff the display name and the email address are both present and non-empty
as raw strings, with no trimming; whitespace-only values count as
present. -/
theorem onboardingGate_amended (nicename email : Option String) :
    onboardingGate nicename email = Mode.OPERATIONAL
      ↔ ((∃ s, nicename = some s ∧ s ≠ "") ∧ (∃ t, email = some t ∧ t ≠ "")) := by
  cases nicename with
  | none => simp [onboardingGate, strTruthy]
  | some s =>
    cases email with
    | none => simp [onboardingGate, strTruthy]
    | some t =>
      by_cases hs : s = ""
      · subst hs; simp [onboardingGate, strTruthy]
      · by_cases ht : t = ""
        · subst ht; simp [onboardingGate, strTruthy]
        · simp [onboardingGate, strTruthy, hs, ht]

/-- Witness for the amended C4 at a concrete fully-populated profile. -/
theorem onboardingGate_amended_witness :
    onboardingGate (some "Ana") (some "ana@example.com") = Mode.OPERATIONAL :=
  (onboardingGate_amended (some "Ana") (some "ana@example.com")).mpr
    ⟨⟨"Ana", rfl, by decide⟩, ⟨"ana@example.com", rfl, by decide⟩⟩

/-! ## Theorems: actor injection -/

/-- C5: `tooledConversation` overwrites the `idWa` slot of the resolved
tool arguments with the inbound sender handle before dispatch, so the
dispatched profile is determined solely by the sender: two dispatches that
differ only in the model-supplied actor identity run identically. -/
theorem dispatch_actor_injection (env : Env) (frm : String) (args : SendMoneyArgs)
    (v w : String) :
    (injectIdWa frm args).idWa = frm
    ∧ sendMoney env (injectIdWa frm { args with idWa := v })
        = sendMoney env (injectIdWa frm { args with idWa := w }) :=
  ⟨rfl, rfl⟩

/-! ## Theorems: first-contact registration -/

/-- C10: a profile created by `registerUserForFirstTime` has its email set
to the sender's transport handle `idWa`; for a non-empty handle the email
is therefore truthy from creation, and the onboarding gate's decision on
such a profile reduces to whether the display name is non-empty. -/
theorem registerFirstTime_email_gate (idWa : String) (data : UserData) (h : idWa ≠ "") :
    (registerUserForFirstTime idWa data).email = some idWa
    ∧ strTruthy (registerUserForFirstTime idWa data).email = true
    ∧ onboardingGate (registerUserForFirstTime idWa data).nicename
        (registerUserForFirstTime idWa data).email
      = (if strTruthy (registerUserForFirstTime idWa data).nicename = true
         then Mode.OPERATIONAL else Mode.ONBOARDING) := by
  obtain ⟨di, du, de, dn, df, dl⟩ := data
  have htruthy : strTruthy (some idWa) = true := by simp [strTruthy, h]
  have hemail : (registerUserForFirstTime idWa ⟨di, du, de, dn, df, dl⟩).email = some idWa := by
    unfold registerUserForFirstTime createUser
    cases hu : strTruthy du <;>
      cases hfl : strTruthy df && strTruthy dl <;>
        simp [htruthy, hu, hfl]
  refine ⟨hemail, ?_, ?_⟩
  · rw [hemail]; exact htruthy
  · rw [hemail]
    cases hn : strTruthy (registerUserForFirstTime idWa ⟨di, du, de, dn, df, dl⟩).nicename <;>
      simp [onboardingGate, htruthy, hn]

/-- Witness for C10 at a concrete handle and empty registration data. -/
theorem registerFirstTime_email_gate_witness :
    (registerUserForFirstTime "5215550000001@c.us" {}).email = some "5215550000001@c.us"
    ∧ strTruthy (registerUserForFirstTime "5215550000001@c.us" {}).email = true
    ∧ onboardingGate (registerUserForFirstTime "5215550000001@c.us" {}).nicename
        (registerUserForFirstTime "5215550000001@c.us" {}).email
      = (if strTruthy (registerUserForFirstTime "5215550000001@c.us" {}).nicename = true
         then Mode.OPERATIONAL else Mode.ONBOARDING) :=
  registerFirstTime_email_gate "5215550000001@c.us" {} (by decide)

/-! ## Theorems: placeholder substitution -/

/-- When the pattern occurs at the head, `replaceFirstL` substitutes it
there. -/
theorem replaceFirstL_at_match (pat repl s : List Char) (h : pat <+: s) :
    replaceFirstL pat repl s = repl ++ s.drop pat.length := by
  cases s with
  | nil =>
    have hp : pat = [] := List.prefix_nil.mp h
    subst hp
    simp [replaceFirstL]
  | cons c rest =>
    unfold replaceFirstL
    rw [if_pos ( List.isPrefixOf_iff_prefix.mpr h)]

/-- When the pattern does not occur at the head, `replaceFirstL` keeps the
head character and recurses. -/
theorem replaceFirstL_cons_no_match (pat repl : List Char) (c : Char)
    (rest : List Char) (h : ¬ pat <+: (c :: rest)) :
    replaceFirstL pat repl (c :: rest) = c :: replaceFirstL pat repl rest := by
  rw [show replaceFirstL pat repl (c :: rest)
        = if pat.isPrefixOf (c :: rest) then repl ++ (c :: rest).drop pat.length
          else c :: replaceFirstL pat repl rest from rfl]
  rw [if_neg (fun hb => h ( List.isPrefixOf_iff_prefix.mp hb))]

/-- A non-empty pattern that occurs nowhere leaves the string unchanged. -/
theorem replaceFirstL_no_occurrence (pat repl s : List Char) (hp : pat ≠ [])
    (h : ∀ i < s.length, ¬ pat <+: s.drop i) :
    replaceFirstL pat repl s = s := by
  induction s with
  | nil =>
    unfold replaceFirstL
    rw [if_neg (fun hb => hp (List.prefix_nil.mp ( List.isPrefixOf_iff_prefix.mp hb)))]
  | cons c rest ih =>
    rw [replaceFirstL_cons_no_match pat repl c rest (by simpa using h 0 (by simp))]
    have hrest : ∀ i < rest.length, ¬ pat <+: rest.drop i := by
      intro i hi
      simpa using h (i + 1) (by simpa using hi)
    rw [ih hrest]

/-- `replaceFirstL` substitutes exactly the first occurrence: if no match
starts inside `x`, the occurrence `pat` right after `x` is the one
replaced, and the tail `y` is untouched. -/
theorem replaceFirstL_first_occurrence (x pat y repl : List Char)
    (h : ∀ i < x.length, ¬ pat <+: ((x ++ pat ++ y).drop i)) :
    replaceFirstL pat repl (x ++ pat ++ y) = x ++ repl ++ y := by
  induction x with
  | nil =>
    simp only [List.nil_append]
    rw [replaceFirstL_at_match pat repl (pat ++ y) ( List.prefix_append pat y)]
    rw [List.drop_left]
  | cons c x ih =>
    have hassoc : (c :: x) ++ pat ++ y = c :: (x ++ pat ++ y) := by simp
    have h0 : ¬ pat <+: (c :: (x ++ pat ++ y)) := by
      have := h 0 (by simp)
      simpa [hassoc] using this
    rw [hassoc, replaceFirstL_cons_no_match pat repl c _ h0]
    have hx : ∀ i < x.length, ¬ pat <+: ((x ++ pat ++ y).drop i) := by
      intro i hi
      have := h (i + 1) (by simp; omega)
      simpa [hassoc] using this
    rw [ih hx]
    simp

/-- C8: confirmation-template substitution is literal first-occurrence
string replacement — a token occurring after a match-free head is replaced
exactly once there; a (non-empty) token that does not occur, in particular
any unknown token, leaves the template verbatim without error; and the
`sendMoney` reply formatting is exactly the three replacements of
`%amount%`, `%name%` and `%transaction_details%` in that order, the last
one by the line-break-prefixed explorer-link block for the settled
transaction. -/
theorem placeholder_format_spec :
    (∀ (s pat repl : String), pat.data ≠ [] →
        (∀ i < s.data.length, ¬ pat.data <+: s.data.drop i) →
        replaceFirst s pat repl = s)
    ∧ (∀ (x pat y repl : List Char),
        (∀ i < x.length, ¬ pat <+: ((x ++ pat ++ y).drop i)) →
        replaceFirstL pat repl (x ++ pat ++ y) = x ++ repl ++ y)
    ∧ (∀ cc amountStr nameStr hash : String,
        formatSendMoneyReply cc amountStr nameStr hash
          = replaceFirst
              (replaceFirst (replaceFirst cc "%amount%" amountStr) "%name%" nameStr)
              "%transaction_details%"
              ("\n\n" ++ ("Link: https://sepolia.arbiscan.io/tx/" ++ hash))) := by
  refine ⟨?_, replaceFirstL_first_occurrence, ?_⟩
  · intro s pat repl hp h
    unfold replaceFirst
    rw [replaceFirstL_no_occurrence pat.data repl.data s.data hp h]
  · intro cc amountStr nameStr hash
    rfl

/-- Witness for C8: an unknown token `%foo%` is left verbatim, and
`%amount%` is substituted at its occurrence. -/
theorem placeholder_format_spec_witness :
    replaceFirst "%foo% bar" "%amount%" "500" = "%foo% bar"
    ∧ replaceFirstL "%amount%".data "500".data
        ("Sent ".data ++ "%amount%".data ++ " to Pedro".data)
      = "Sent ".data ++ "500".data ++ " to Pedro".data :=
  ⟨placeholder_format_spec.1 "%foo% bar" "%amount%" "500" (by decide) (by decide),
   placeholder_format_spec.2.1 "Sent ".data "%amount%".data " to Pedro".data "500".data
     (by decide)⟩

/-! ## Theorems: the send-money handler -/

/-- C1: whenever the sender's queried token balance is below the requested
amount, `sendMoney` fails with the insufficient-funds error and the
transfer collaborator (`sendToken`) is never called. -/
theorem sendMoney_insufficient_funds (env : Env) (args : SendMoneyArgs) (a : Int)
    (c : Contact) (nm ph : String) (u : User) (w : Wallet)
    (hAmt : args.amount = some a) (hA0 : a ≠ 0)
    (hC : args.contact = some c)
    (hNm : c.name = some nm) (hNm0 : nm ≠ "")
    (hPh : c.phoneNumber = some ph) (hPh0 : ph ≠ "")
    (hU : findFirst env.db args.idWa = some u) (hW : u.wallet = some w)
    (hBal : env.balanceOf w.address < a) :
    (sendMoney env args).1 = Except.error SmErr.insufficientBalance
    ∧ (sendMoney env args).2.countP isSendTokenEv = 0 := by
  have hsend : sendMoney env args =
      (Except.error SmErr.insufficientBalance,
       [Ev.findUser args.idWa, Ev.getBalance w.address tokenAddress]) := by
    unfold sendMoney
    simp [hAmt, hC, hNm, hPh, hU, hW, numTruthy, strTruthy, hA0, hNm0, hPh0, hBal]
  rw [hsend]
  exact ⟨rfl, rfl⟩

/-- Witness for C1: balance 100, request 500. -/
theorem sendMoney_insufficient_funds_witness :
    (sendMoney lowBalEnv reqArgs).1 = Except.error SmErr.insufficientBalance
    ∧ (sendMoney lowBalEnv reqArgs).2.countP isSendTokenEv = 0 :=
  sendMoney_insufficient_funds lowBalEnv reqArgs 500
    { name := some "Pedro", phoneNumber := some "5215550000002@c.us" }
    "Pedro" "5215550000002@c.us" userS walletS
    rfl (by decide) rfl rfl (by decide) rfl (by decide) (by decide) rfl (by decide)

/-- C3: when the recipient handle has no profile on record (and the request
is valid, the sender exists with a wallet and enough balance), the
side-effecting collaborator calls of the dispatch are exactly one profile
creation, one wallet generation, one wallet funding and one token transfer,
in that order. -/
theorem sendMoney_new_recipient_sequence (env : Env) (args : SendMoneyArgs) (a : Int)
    (c : Contact) (nm ph : String) (u : User) (w : Wallet)
    (hAmt : args.amount = some a) (hA0 : a ≠ 0)
    (hC : args.contact = some c)
    (hNm : c.name = some nm) (hNm0 : nm ≠ "")
    (hPh : c.phoneNumber = some ph) (hPh0 : ph ≠ "")
    (hU : findFirst env.db args.idWa = some u) (hW : u.wallet = some w)
    (hBal : ¬ env.balanceOf w.address < a)
    (hR : findFirst env.db ph = none) :
    ((sendMoney env args).2.filter isKeyEv).map evKind
      = [EvKind.createProfile, EvKind.generateWallet, EvKind.fundWallet,
         EvKind.sendToken] := by
  have hsend : sendMoney env args =
      sendMoneyTransferStep env w a nm ph env.newWallet.address
        ([Ev.findUser args.idWa, Ev.getBalance w.address tokenAddress, Ev.findUser ph]
         ++ [Ev.createProfile ph nm, Ev.generateWallet,
             Ev.fundWallet env.newWallet.address, Ev.updateUserWallet ph]) := by
    unfold sendMoney
    simp [hAmt, hC, hNm, hPh, hU, hW, numTruthy, strTruthy, hA0, hNm0, hPh0, hBal, hR]
  rw [hsend]
  unfold sendMoneyTransferStep
  cases ht : env.transferOk <;> simp [isKeyEv, evKind]

/-- Witness for C3: recipient `5215550000002@c.us` unknown to the user
table. -/
theorem sendMoney_new_recipient_sequence_witness :
    ((sendMoney newRecipEnv reqArgs).2.filter isKeyEv).map evKind
      = [EvKind.createProfile, EvKind.generateWallet, EvKind.fundWallet,
         EvKind.sendToken] :=
  sendMoney_new_recipient_sequence newRecipEnv reqArgs 500
    { name := some "Pedro", phoneNumber := some "5215550000002@c.us" }
    "Pedro" "5215550000002@c.us" userS walletS
    rfl (by decide) rfl rfl (by decide) rfl (by decide) (by decide) rfl (by decide)
    (by decide)

/-- C2 counterexample: `sendMoney` with the negative amount `-1` is NOT
rejected before lookups and transfer — the run performs the token transfer
(one `sendToken` call), so the claimed rejection of every amount ≤ 0 before
any side effect fails; only falsy amounts (`0` or missing) are caught by
the validation gate. -/
theorem sendMoney_negative_amount_counterexample :
    negArgs.amount = some (-1)
    ∧ (-1 : Int) ≤ 0
    ∧ (sendMoney okEnv negArgs).2.countP isSendTokenEv = 1
    ∧ (sendMoney okEnv negArgs).2 ≠ [] := by decide

/-- C2 amended: the validation gate rejects a falsy amount (missing or
exactly `0`) and a missing recipient, or one without name or phone, with a
validation error and an empty collaborator trace (no side effects, no lookups); in
particular amount = 0 is rejected before anything happens.  (Negative
amounts are truthy and pass this gate.) -/
theorem sendMoney_validation_amended (env : Env) (args : SendMoneyArgs) :
    (numTruthy args.amount = false →
        sendMoney env args = (Except.error SmErr.amountRequired, []))
    ∧ (numTruthy args.amount = true → args.contact = none →
        sendMoney env args = (Except.error SmErr.contactRequired, []))
    ∧ (∀ ct, numTruthy args.amount = true → args.contact = some ct →
        strTruthy ct.name = false ∨ strTruthy ct.phoneNumber = false →
        ∃ e, isValidationErr e = true ∧ sendMoney env args = (Except.error e, [])) := by
  refine ⟨?_, ?_, ?_⟩
  · intro h
    unfold sendMoney
    simp [h]
  · intro ha hc
    unfold sendMoney
    simp [ha, hc]
  · intro ct ha hc hbad
    unfold sendMoney
    cases hn : strTruthy ct.name
    · cases hp : strTruthy ct.phoneNumber
      · exact ⟨SmErr.contactNameAndPhoneRequired, rfl, by simp [ha, hc, hn, hp]⟩
      · exact ⟨SmErr.contactNameRequired, rfl, by simp [ha, hc, hn, hp]⟩
    · cases hp : strTruthy ct.phoneNumber
      · exact ⟨SmErr.contactPhoneRequired, rfl, by simp [ha, hc, hn, hp]⟩
      · rcases hbad with hb | hb
        · rw [hn] at hb; exact absurd hb (by simp)
        · rw [hp] at hb; exact absurd hb (by simp)

/-- Witness for the amended C2: amount 0 yields the amount-required
validation error with an empty trace. -/
theorem sendMoney_validation_amended_witness :
    sendMoney okEnv
      { amount := some 0
        contact := some { name := some "Pedro", phoneNumber := some "5215550000002@c.us" }
        continueConversation := some "ok"
        idWa := "5215550000001@c.us" }
      = (Except.error SmErr.amountRequired, []) :=
  (sendMoney_validation_amended okEnv _).1 (by decide)

/-- In every run of `sendMoney` the transfer collaborator is called at most
once (no retry). -/
theorem sendMoney_transfer_at_most_once (env : Env) (args : SendMoneyArgs) :
    (sendMoney env args).2.countP isSendTokenEv ≤ 1 := by
  unfold sendMoney sendMoneyTransferStep
  repeat' split
  all_goals try simp [isSendTokenEv]
  all_goals (split <;> try simp [isSendTokenEv])
  all_goals (split <;> try simp [isSendTokenEv])
  all_goals (split <;> try simp [isSendTokenEv])

/-- C9: every error raised during the `sendMoney` dispatch of
`tooledConversation` is caught and replaced by the fixed generic apology —
one message independent of the error's detail — and the turn's collaborator
trace is that of the single handler run, with no second transfer attempt. -/
theorem tooled_dispatch_error_fallback (env : Env) (args : SendMoneyArgs) (e : SmErr)
    (tr : List Ev) (h : sendMoney env args = (Except.error e, tr)) :
    tooledSendMoneyTurn env args = (some apologyMsg, tr)
    ∧ tr.countP isSendTokenEv ≤ 1 := by
  constructor
  · unfold tooledSendMoneyTurn
    rw [h]
  · have hle := sendMoney_transfer_at_most_once env args
    rw [h] at hle
    exact hle

/-- Witness for C9: a failing on-chain transfer ends the turn with the
apology and exactly the one transfer attempt in the trace. -/
theorem tooled_dispatch_error_fallback_witness :
    tooledSendMoneyTurn failEnv reqArgs
      = (some apologyMsg,
         [Ev.findUser "5215550000001@c.us",
          Ev.getBalance "0xSENDER" tokenAddress,
          Ev.findUser "5215550000002@c.us",
          Ev.sendToken "0xSENDER" "0xRECIP" 500])
    ∧ List.countP isSendTokenEv
        [Ev.findUser "5215550000001@c.us",
         Ev.getBalance "0xSENDER" tokenAddress,
         Ev.findUser "5215550000002@c.us",
         Ev.sendToken "0xSENDER" "0xRECIP" 500] ≤ 1 :=
  tooled_dispatch_error_fallback failEnv reqArgs SmErr.errorSendingMoney _ (by rfl)

end Wapa
